import Mathlib

/-!
Verification of the Bhopal BRTS chatbot question-answering pipeline
(`utils/chatbot.py`), shallowly embedded in Lean 4.

Python strings are modelled as `List Char` (`PyStr`), so that the
single-character `str.replace` calls of the source become structurally
recursive functions that are easy to reason about.  The external
collaborators (the persisted chroma vector store, the Gemini embedding
and generation services, the process environment) are modelled as an
explicit `Env` record, and every pipeline function returns its result
together with a trace of externally visible events, so that claims about
call order, call counts and the absence of network calls are statable.
-/

/-- A Python string, modelled as its list of characters. -/
abbrev PyStr := List Char

/-- Python `s.replace(needle, repl)` for a single-character needle:
every occurrence of `needle` is replaced by `repl`. -/
def pyReplace (needle : Char) (repl : PyStr) : PyStr → PyStr
  | [] => []
  | c :: rest => (if c = needle then repl else [c]) ++ pyReplace needle repl rest

/-- The sanitization applied by `make_rag_prompt` (chatbot.py line 119):
`relevant_passage.replace("'", "").replace('"', "").replace("\n", " ")` —
single quotes removed, double quotes removed, newlines turned into spaces. -/
def escapePy (s : PyStr) : PyStr :=
  pyReplace '\n' [' '] (pyReplace '"' [] (pyReplace '\'' [] s))

/-- Python `"".join(texts)` (chatbot.py line 68): concatenation of the
passages in order, with no separator. -/
def pyJoin (texts : List PyStr) : PyStr := texts.flatten

/-- Python `str.format` rendering of an argument that may be `None`:
`None` renders as the literal text `None`, a string renders as itself. -/
def pyFormatOpt : Option PyStr → PyStr
  | none => "None".data
  | some s => s

/-- Modelled from the spec: `RAG_PROMPT_CONSTANT` is defined in
`utils/constants.py`, which is not under src/; the spec (section 4.4)
describes it as a fixed template constant carrying domain-specific
instructions with slots for the query, the sanitized passage block and
the location hint.  We model it as four fixed literal fragments
surrounding the three slots, in the order the spec narrates them.
This fragment precedes the query slot. -/
def promptPreQuery : PyStr :=
  "You are a helpful assistant for the Bhopal BRTS transit system. Answer only from the given passage. QUESTION: ".data

/-- Modelled from the spec: the template fragment between the query slot
and the passage slot of `RAG_PROMPT_CONSTANT`. -/
def promptPrePassage : PyStr := " PASSAGE: ".data

/-- Modelled from the spec: the template fragment between the passage slot
and the location slot of `RAG_PROMPT_CONSTANT`. -/
def promptPreLocation : PyStr := " CURRENT LOCATION: ".data

/-- Modelled from the spec: the template fragment after the location slot
of `RAG_PROMPT_CONSTANT`. -/
def promptSuffix : PyStr := " ANSWER:".data

/-- `make_rag_prompt` (chatbot.py lines 107-120): sanitizes the passage
block and substitutes query, sanitized passage block and location hint
into the fixed template.  Only the passage block is sanitized; the query
and the location hint are substituted verbatim (the location via Python
`format` rendering, so `None` becomes the text `None`). -/
def make_rag_prompt (query : PyStr) (relevant_passage : PyStr)
    (current_location : Option PyStr) : PyStr :=
  promptPreQuery ++ query ++ promptPrePassage ++ escapePy relevant_passage ++
    promptPreLocation ++ pyFormatOpt current_location ++ promptSuffix

/-- The error kinds of the pipeline, following the spec's section 7 naming
(`ConfigurationError` is the `ValueError` the source raises for a missing
credential). -/
inductive PipelineError where
  | configurationError
  | notFoundError
  | storageError
  | generationError
  deriving DecidableEq, Repr

/-- Externally visible events of one pipeline call: opening the persisted
store, a network call to the embedding service, a similarity query against
the collection, and a network call to the generation service. -/
inductive Event where
  | loadStore (path : String) (name : String)
  | embedCall
  | retrieve (query : PyStr) (k : Nat)
  | genCall (prompt : PyStr)
  deriving DecidableEq, Repr

/-- Modelled from the spec: a chroma collection handle is an external
collaborator (section 4.3).  It holds the stored document texts and, for
each query, either fails (storage error) or reports all stored documents
ranked most-relevant first; `rankedPerm` records the store's contract that
the ranking is a reordering of the stored documents. -/
structure Collection where
  documents : List PyStr
  rankedOf : PyStr → Except PipelineError (List PyStr)
  rankedPerm : ∀ q r, rankedOf q = Except.ok r → r.Perm documents

/-- Modelled from the spec: the external world of one call — the
`GEMINI_API_KEY` environment variable (`none` when unset, possibly the
empty string), the persisted store addressed by (path, name), the
embedding service and the generation service (sections 4.1, 4.2, 6). -/
structure Env where
  apiKey : Option PyStr
  store : String → String → Except PipelineError Collection
  embedService : List PyStr → List (List Int)
  generate : PyStr → Except PipelineError PyStr

/-- `GeminiEmbeddingFunction.__call__` (chatbot.py lines 16-30): reads
`GEMINI_API_KEY`; if it is unset or empty, raises before any network
call (empty trace); otherwise performs one embedding network call and
returns one vector per input. -/
def geminiEmbeddingCall (env : Env) (input : List PyStr) :
    Except PipelineError (List (List Int)) × List Event :=
  match env.apiKey with
  | none => (Except.error PipelineError.configurationError, [])
  | some k =>
    if k = [] then (Except.error PipelineError.configurationError, [])
    else (Except.ok (env.embedService input), [Event.embedCall])

/-- `load_chroma_collection` (chatbot.py lines 75-89): opens the persisted
store at `path` and gets the collection `name` from it, propagating the
store's failure if it does not exist or is unreadable. -/
def load_chroma_collection (env : Env) (path : String) (name : String) :
    Except PipelineError Collection × List Event :=
  (env.store path name, [Event.loadStore path name])

/-- `get_relevant_passage` (chatbot.py lines 92-104):
`db.query(query_texts=[query], n_results=n_results)["documents"][0]`.
The store ranks the documents for the query; the first `n_results` of that
ranking are returned (fewer when fewer documents exist). -/
def get_relevant_passage (query : PyStr) (db : Collection) (n_results : Nat) :
    Except PipelineError (List PyStr) × List Event :=
  match db.rankedOf query with
  | Except.error e => (Except.error e, [Event.retrieve query n_results])
  | Except.ok r => (Except.ok (r.take n_results), [Event.retrieve query n_results])

/-- `__generate_answer` (chatbot.py lines 46-65): reads `GEMINI_API_KEY`;
if it is unset or empty, raises before any network call (empty trace);
otherwise performs one generation network call and returns the model's
text verbatim. -/
def generate_answer_gemini (env : Env) (prompt : PyStr) :
    Except PipelineError PyStr × List Event :=
  match env.apiKey with
  | none => (Except.error PipelineError.configurationError, [])
  | some k =>
    if k = [] then (Except.error PipelineError.configurationError, [])
    else (env.generate prompt, [Event.genCall prompt])

/-- `generate_answer` (chatbot.py lines 33-72): retrieves the top-5
passages, joins them into one block, formats the prompt and sends it to
the generation model, returning its text verbatim.  Any failure aborts
the call and propagates. -/
def generate_answer (env : Env) (db : Collection) (query : PyStr)
    (current_location : Option PyStr) : Except PipelineError PyStr × List Event :=
  match get_relevant_passage query db 5 with
  | (Except.error e, tr) => (Except.error e, tr)
  | (Except.ok relevant_text, tr) =>
    let prompt := make_rag_prompt query (pyJoin relevant_text) current_location
    let out := generate_answer_gemini env prompt
    (out.1, tr ++ out.2)

/-- `ask_question` (chatbot.py lines 123-137): loads the collection named
`chatbot_rag_collection` from the fixed relative path `./chroma`, then
runs `generate_answer`.  `current_location` defaults to `None`. -/
def ask_question (env : Env) (query : PyStr)
    (current_location : optParam (Option PyStr) none) :
    Except PipelineError PyStr × List Event :=
  match load_chroma_collection env "./chroma" "chatbot_rag_collection" with
  | (Except.error e, tr) => (Except.error e, tr)
  | (Except.ok db, tr) =>
    let out := generate_answer env db query current_location
    (out.1, tr ++ out.2)

/-! ### Stub environment (spec section 8, end-to-end scenario) -/

/-- The two stub documents of the spec's end-to-end scenario. -/
def stubDocs : List PyStr :=
  ["BRTS stands for Bus Rapid Transit System.".data,
   "It started in Bhopal in 2013.".data]

/-- A stub collection holding exactly the two stub documents; every query
ranks them in insertion order. -/
def stubCollection : Collection where
  documents := stubDocs
  rankedOf := fun _ => Except.ok stubDocs
  rankedPerm := fun _ r h => by
    injection h with h
    exact h ▸ List.Perm.refl _

/-- A stub environment: the credential is present, the store answers every
(path, name) with the stub collection, the embedding function returns
fixed vectors, and the generation model echoes its prompt. -/
def stubEnv : Env where
  apiKey := some "k".data
  store := fun _ _ => Except.ok stubCollection
  embedService := fun input => input.map (fun _ => [0])
  generate := fun prompt => Except.ok prompt

/-! ### Helper lemmas -/

/-- A character of `pyReplace needle repl s` comes from the replacement or
is a character of `s` other than the needle. -/
lemma mem_pyReplace {c needle : Char} {repl : PyStr} :
    ∀ {s : PyStr}, c ∈ pyReplace needle repl s → c ∈ repl ∨ (c ∈ s ∧ c ≠ needle) := by
  intro s
  induction s with
  | nil => intro h; cases h
  | cons a rest ih =>
    intro h
    rw [pyReplace, List.mem_append] at h
    rcases h with h | h
    · by_cases ha : a = needle
      · rw [if_pos ha] at h
        exact Or.inl h
      · rw [if_neg ha] at h
        rcases List.mem_singleton.mp h with rfl
        exact Or.inr ⟨List.mem_cons_self _ _, ha⟩
    · rcases ih h with h | ⟨h1, h2⟩
      · exact Or.inl h
      · exact Or.inr ⟨List.mem_cons_of_mem _ h1, h2⟩

/-- No character of an escaped passage block is a single quote, a double
quote or a newline. -/
lemma escapePy_clean {c : Char} {s : PyStr} (h : c ∈ escapePy s) :
    c ≠ '\'' ∧ c ≠ '"' ∧ c ≠ '\n' := by
  rcases mem_pyReplace h with h | ⟨h, hn⟩
  · rcases List.mem_singleton.mp h with rfl
    exact ⟨by decide, by decide, by decide⟩
  · rcases mem_pyReplace h with h' | ⟨h', hq⟩
    · cases h'
    · rcases mem_pyReplace h' with h'' | ⟨_, hsq⟩
      · cases h''
      · exact ⟨hsq, hq, hn⟩

/-- Unfolding of a fully successful `ask_question` run: given that the
store, the ranking and the generation all succeed and the credential is a
nonempty string, the call returns the generated text and performs exactly
one load, one retrieval with K = 5 and one generation call, in order. -/
lemma ask_question_run (env : Env) (q : PyStr) (loc : Option PyStr)
    (db : Collection) (r : List PyStr) (k : PyStr) (t : PyStr)
    (hk : env.apiKey = some k) (hk' : k ≠ [])
    (hs : env.store "./chroma" "chatbot_rag_collection" = Except.ok db)
    (hr : db.rankedOf q = Except.ok r)
    (hg : env.generate (make_rag_prompt q (pyJoin (r.take 5)) loc) = Except.ok t) :
    ask_question env q loc =
      (Except.ok t,
       [Event.loadStore "./chroma" "chatbot_rag_collection",
        Event.retrieve q 5,
        Event.genCall (make_rag_prompt q (pyJoin (r.take 5)) loc)]) := by
  simp only [ask_question, load_chroma_collection, hs, generate_answer,
    get_relevant_passage, hr, generate_answer_gemini, hk, if_neg hk', hg]
  rfl

/-- Inversion of a successful `ask_question` call: an answer is produced
only when the store, the ranking and the generation all succeeded, and it
is exactly the generation model's output for the formatted prompt. -/
lemma ask_question_ok_inv (env : Env) (q : PyStr) (loc : Option PyStr) (t : PyStr)
    (h : (ask_question env q loc).1 = Except.ok t) :
    ∃ db r, env.store "./chroma" "chatbot_rag_collection" = Except.ok db ∧
      db.rankedOf q = Except.ok r ∧
      env.generate (make_rag_prompt q (pyJoin (r.take 5)) loc) = Except.ok t := by
  rcases hs : env.store "./chroma" "chatbot_rag_collection" with e | db
  · simp only [ask_question, load_chroma_collection, hs] at h
    exact absurd h (by simp)
  · rcases hr : db.rankedOf q with e | r
    · simp only [ask_question, load_chroma_collection, hs, generate_answer,
        get_relevant_passage, hr] at h
      exact absurd h (by simp)
    · rcases hk : env.apiKey with _ | k
      · simp only [ask_question, load_chroma_collection, hs, generate_answer,
          get_relevant_passage, hr, generate_answer_gemini, hk] at h
        exact absurd h (by simp)
      · by_cases hk0 : k = []
        · simp only [ask_question, load_chroma_collection, hs, generate_answer,
            get_relevant_passage, hr, generate_answer_gemini, hk, if_pos hk0] at h
          exact absurd h (by simp)
        · simp only [ask_question, load_chroma_collection, hs, generate_answer,
            get_relevant_passage, hr, generate_answer_gemini, hk, if_neg hk0] at h
          exact ⟨db, r, rfl, hr, h⟩

/-- A stub environment whose credential is missing. -/
def stubEnvNoKey : Env := { stubEnv with apiKey := none }

/-- A stub environment whose store has no usable collection. -/
def stubEnvBadStore : Env :=
  { stubEnv with store := fun _ _ => Except.error PipelineError.notFoundError }

/-! ### Claims -/

/-- C1: for every query and optional location, `ask_question` runs the
fixed linear pipeline exactly once per call: it opens the persisted
collection at the fixed path `./chroma` under the fixed name
`chatbot_rag_collection`, retrieves the top-5 passages for the query,
formats the prompt from query, concatenated passages and location, sends
that prompt to the generation model and returns its text verbatim; the
trace shows exactly one load, one retrieval and one generation call, and
no state survives a call, so nothing is cached across calls. -/
theorem ask_question_linear_pipeline (env : Env) (q : PyStr) (loc : Option PyStr)
    (db : Collection) (r : List PyStr) (k t : PyStr)
    (hk : env.apiKey = some k) (hk' : k ≠ [])
    (hs : env.store "./chroma" "chatbot_rag_collection" = Except.ok db)
    (hr : db.rankedOf q = Except.ok r)
    (hg : env.generate (make_rag_prompt q (pyJoin (r.take 5)) loc) = Except.ok t) :
    ask_question env q loc =
      (Except.ok t,
       [Event.loadStore "./chroma" "chatbot_rag_collection",
        Event.retrieve q 5,
        Event.genCall (make_rag_prompt q (pyJoin (r.take 5)) loc)]) :=
  ask_question_run env q loc db r k t hk hk' hs hr hg

/-- Witness for C1: the pipeline equation evaluated in the stub
environment. -/
theorem ask_question_linear_pipeline_witness :
    ask_question stubEnv ("hi".data) none =
      (Except.ok (make_rag_prompt ("hi".data) (pyJoin (stubDocs.take 5)) none),
       [Event.loadStore "./chroma" "chatbot_rag_collection",
        Event.retrieve ("hi".data) 5,
        Event.genCall (make_rag_prompt ("hi".data) (pyJoin (stubDocs.take 5)) none)]) :=
  ask_question_linear_pipeline stubEnv ("hi".data) none stubCollection stubDocs
    ("k".data) (make_rag_prompt ("hi".data) (pyJoin (stubDocs.take 5)) none)
    rfl (by decide) rfl rfl rfl

/-- C2: the passage block handed to the prompt formatter is the passages
concatenated in retrieval order; the formatter sanitizes exactly that
block, and the sanitized block contains no single quote, no double quote
and no newline. -/
theorem make_rag_prompt_sanitizes_passages (q : PyStr) (passages : List PyStr)
    (loc : Option PyStr) :
    make_rag_prompt q (pyJoin passages) loc =
      promptPreQuery ++ q ++ promptPrePassage ++ escapePy (pyJoin passages) ++
        promptPreLocation ++ pyFormatOpt loc ++ promptSuffix
    ∧ (∀ p ps, pyJoin (p :: ps) = p ++ pyJoin ps)
    ∧ ∀ c ∈ escapePy (pyJoin passages), c ≠ '\'' ∧ c ≠ '"' ∧ c ≠ '\n' :=
  ⟨rfl, fun _ _ => rfl, fun _ hc => escapePy_clean hc⟩

/-- Witness for C2: the sanitized form of a passage consisting of one
newline is a space, which is none of the stripped characters. -/
theorem make_rag_prompt_sanitizes_passages_witness :
    ' ' ≠ '\'' ∧ ' ' ≠ '"' ∧ ' ' ≠ '\n' :=
  (make_rag_prompt_sanitizes_passages [] [['\n']] none).2.2 ' ' (by decide)

/-- C3: when `GEMINI_API_KEY` is unset or empty, both the embedding step
and the generation step fail with the configuration error and their
traces are empty, so no network call is attempted; when the credential is
a nonempty string, the check passes and each step proceeds directly to
its network call. -/
theorem credential_gates_network (env : Env) (input : List PyStr) (prompt : PyStr) :
    ((env.apiKey = none ∨ env.apiKey = some []) →
      geminiEmbeddingCall env input = (Except.error PipelineError.configurationError, []) ∧
      generate_answer_gemini env prompt = (Except.error PipelineError.configurationError, []))
    ∧ (∀ k, env.apiKey = some k → k ≠ [] →
      geminiEmbeddingCall env input = (Except.ok (env.embedService input), [Event.embedCall]) ∧
      generate_answer_gemini env prompt = (env.generate prompt, [Event.genCall prompt])) := by
  constructor
  · rintro (h | h) <;> simp [geminiEmbeddingCall, generate_answer_gemini, h]
  · intro k hk hk0
    simp [geminiEmbeddingCall, generate_answer_gemini, hk, hk0]

/-- Witness for C3: with no credential in the stub environment, both
steps fail with the configuration error and no network event occurs. -/
theorem credential_gates_network_witness :
    geminiEmbeddingCall stubEnvNoKey [] =
      (Except.error PipelineError.configurationError, []) ∧
    generate_answer_gemini stubEnvNoKey [] =
      (Except.error PipelineError.configurationError, []) :=
  (credential_gates_network stubEnvNoKey [] []).1 (Or.inl rfl)

/-- C4: when the store ranks the documents for a query, retrieval with
K = 5 returns the first five of that ranking: exactly 5 documents when at
least 5 are stored, and exactly as many as are stored when fewer exist,
with no error either way; the returned list is a prefix of the store's
relevance order. -/
theorem get_relevant_passage_respects_k (q : PyStr) (db : Collection) (r : List PyStr)
    (h : db.rankedOf q = Except.ok r) :
    (get_relevant_passage q db 5).1 = Except.ok (r.take 5)
    ∧ (5 ≤ db.documents.length → (r.take 5).length = 5)
    ∧ (db.documents.length < 5 → (r.take 5).length = db.documents.length)
    ∧ ∃ rest, r = r.take 5 ++ rest := by
  have hlen : r.length = db.documents.length := (db.rankedPerm q r h).length_eq
  refine ⟨?_, ?_, ?_, ⟨r.drop 5, (List.take_append_drop 5 r).symm⟩⟩
  · simp [get_relevant_passage, h]
  · intro h5; rw [List.length_take, hlen]; omega
  · intro h5; rw [List.length_take, hlen]; omega

/-- Witness for C4: the stub collection holds two documents, and
retrieval with K = 5 returns exactly those two without error. -/
theorem get_relevant_passage_respects_k_witness :
    (get_relevant_passage ("BRTS".data) stubCollection 5).1 =
      Except.ok (stubDocs.take 5)
    ∧ (stubDocs.take 5).length = stubCollection.documents.length :=
  ⟨(get_relevant_passage_respects_k ("BRTS".data) stubCollection stubDocs rfl).1,
   (get_relevant_passage_respects_k ("BRTS".data) stubCollection stubDocs rfl).2.2.1
     (by decide)⟩

/-- C5: a failure of collection loading or retrieval aborts the call and
surfaces that very error to the caller, and an answer is produced only
when every stage succeeded, in which case it is the complete generation
output — never a partially constructed answer. -/
theorem ask_question_propagates_failures (env : Env) (q : PyStr) (loc : Option PyStr) :
    (∀ e, env.store "./chroma" "chatbot_rag_collection" = Except.error e →
      (ask_question env q loc).1 = Except.error e)
    ∧ (∀ db e, env.store "./chroma" "chatbot_rag_collection" = Except.ok db →
        db.rankedOf q = Except.error e → (ask_question env q loc).1 = Except.error e)
    ∧ (∀ t, (ask_question env q loc).1 = Except.ok t →
        ∃ db r, env.store "./chroma" "chatbot_rag_collection" = Except.ok db ∧
          db.rankedOf q = Except.ok r ∧
          env.generate (make_rag_prompt q (pyJoin (r.take 5)) loc) = Except.ok t) := by
  refine ⟨?_, ?_, fun t h => ask_question_ok_inv env q loc t h⟩
  · intro e he
    simp [ask_question, load_chroma_collection, he]
  · intro db e hdb he
    simp [ask_question, load_chroma_collection, hdb, generate_answer,
      get_relevant_passage, he]

/-- Witness for C5: a failing store aborts the call with that error. -/
theorem ask_question_propagates_failures_witness :
    (ask_question stubEnvBadStore ("hi".data) none).1 =
      Except.error PipelineError.notFoundError :=
  (ask_question_propagates_failures stubEnvBadStore ("hi".data) none).1
    PipelineError.notFoundError rfl

/-- C6: in the stub environment — two stub documents, fixed embedding
vectors, a generation model echoing its prompt — the answer to the query
`What is BRTS?` contains the literal query text and both stub document
texts concatenated (sanitized passage segment). -/
theorem ask_question_stub_end_to_end :
    ∃ ans : PyStr,
      (ask_question stubEnv ("What is BRTS?".data)).1 = Except.ok ans
      ∧ (∃ a b, ans = a ++ "What is BRTS?".data ++ b)
      ∧ (∃ a b, ans =
          a ++ ("BRTS stands for Bus Rapid Transit System.".data ++
                "It started in Bhopal in 2013.".data) ++ b) := by
  refine ⟨make_rag_prompt ("What is BRTS?".data) (pyJoin (stubDocs.take 5)) none,
    ?_, ?_, ?_⟩
  · rw [ask_question_run stubEnv ("What is BRTS?".data) none stubCollection stubDocs
      ("k".data) (make_rag_prompt ("What is BRTS?".data) (pyJoin (stubDocs.take 5)) none)
      rfl (by decide) rfl rfl rfl]
  · refine ⟨promptPreQuery,
      promptPrePassage ++ escapePy (pyJoin (stubDocs.take 5)) ++
        promptPreLocation ++ pyFormatOpt none ++ promptSuffix, ?_⟩
    simp [make_rag_prompt, List.append_assoc]
  · refine ⟨promptPreQuery ++ "What is BRTS?".data ++ promptPrePassage,
      promptPreLocation ++ pyFormatOpt none ++ promptSuffix, ?_⟩
    have hesc : escapePy (pyJoin (stubDocs.take 5)) =
        "BRTS stands for Bus Rapid Transit System.".data ++
          "It started in Bhopal in 2013.".data := by decide
    rw [make_rag_prompt, hesc]
    simp [List.append_assoc]

/-- C7: the prompt formatter is deterministic — identical argument
triples produce identical prompts. -/
theorem make_rag_prompt_deterministic (q₁ q₂ p₁ p₂ : PyStr) (l₁ l₂ : Option PyStr)
    (hq : q₁ = q₂) (hp : p₁ = p₂) (hl : l₁ = l₂) :
    make_rag_prompt q₁ p₁ l₁ = make_rag_prompt q₂ p₂ l₂ := by
  rw [hq, hp, hl]

/-- Witness for C7: determinism at a concrete argument triple. -/
theorem make_rag_prompt_deterministic_witness :
    make_rag_prompt ("a".data) ("b".data) none =
      make_rag_prompt ("a".data) ("b".data) none :=
  make_rag_prompt_deterministic ("a".data) ("a".data) ("b".data) ("b".data)
    none none rfl rfl rfl

/-- C8: for a non-empty query and a populated collection, when every
external dependency succeeds — with generation success yielding usable,
hence non-empty, text per the spec's error taxonomy — `ask_question`
returns that text, a non-empty string. -/
theorem ask_question_nonempty_answer (env : Env) (q : PyStr) (loc : Option PyStr)
    (db : Collection) (r : List PyStr) (k t : PyStr)
    (_hq : q ≠ []) (_hpop : db.documents ≠ [])
    (hk : env.apiKey = some k) (hk' : k ≠ [])
    (hs : env.store "./chroma" "chatbot_rag_collection" = Except.ok db)
    (hr : db.rankedOf q = Except.ok r)
    (hg : env.generate (make_rag_prompt q (pyJoin (r.take 5)) loc) = Except.ok t)
    (ht : t ≠ []) :
    (ask_question env q loc).1 = Except.ok t ∧ t ≠ [] := by
  rw [ask_question_run env q loc db r k t hk hk' hs hr hg]
  exact ⟨rfl, ht⟩

/-- Witness for C8: in the stub environment the answer to a non-empty
query is a non-empty string. -/
theorem ask_question_nonempty_answer_witness :
    (ask_question stubEnv ("What is BRTS?".data) none).1 =
      Except.ok (make_rag_prompt ("What is BRTS?".data) (pyJoin (stubDocs.take 5)) none)
    ∧ make_rag_prompt ("What is BRTS?".data) (pyJoin (stubDocs.take 5)) none ≠ [] :=
  ask_question_nonempty_answer stubEnv ("What is BRTS?".data) none stubCollection
    stubDocs ("k".data)
    (make_rag_prompt ("What is BRTS?".data) (pyJoin (stubDocs.take 5)) none)
    (by decide) (by decide) rfl (by decide) rfl rfl rfl (by decide)

/-- C9: the query is never validated or transformed: whatever string it
is — empty or whitespace-only included — it reaches the retrieval step
unchanged (the retrieval event carries the query verbatim) and is
substituted verbatim into the prompt, the sanitization applying only to
the passage block and not to the query or the location hint. -/
theorem query_not_validated (env : Env) (q : PyStr) (loc : Option PyStr)
    (db : Collection)
    (hs : env.store "./chroma" "chatbot_rag_collection" = Except.ok db) :
    Event.retrieve q 5 ∈ (ask_question env q loc).2
    ∧ ∀ p : PyStr, make_rag_prompt q p loc =
        promptPreQuery ++ q ++ promptPrePassage ++ escapePy p ++
          promptPreLocation ++ pyFormatOpt loc ++ promptSuffix := by
  refine ⟨?_, fun p => rfl⟩
  rcases hr : db.rankedOf q with e | r
  · simp [ask_question, load_chroma_collection, hs, generate_answer,
      get_relevant_passage, hr]
  · rcases hk : env.apiKey with _ | k
    · simp [ask_question, load_chroma_collection, hs, generate_answer,
        get_relevant_passage, hr, generate_answer_gemini, hk]
    · by_cases hk0 : k = [] <;>
        simp [ask_question, load_chroma_collection, hs, generate_answer,
          get_relevant_passage, hr, generate_answer_gemini, hk, hk0]

/-- Witness for C9: even the empty query reaches retrieval unchanged. -/
theorem query_not_validated_witness :
    Event.retrieve [] 5 ∈ (ask_question stubEnv [] none).2 :=
  (query_not_validated stubEnv [] none stubCollection rfl).1

/-- C10: `current_location` defaults to `None`, and the prompt's location
slot then receives the literal text `None` — absence gets no special
handling. -/
theorem ask_question_default_location (env : Env) (q : PyStr) :
    ask_question env q = ask_question env q none
    ∧ pyFormatOpt none = "None".data
    ∧ ∀ p : PyStr, make_rag_prompt q p none =
        promptPreQuery ++ q ++ promptPrePassage ++ escapePy p ++
          promptPreLocation ++ "None".data ++ promptSuffix :=
  ⟨rfl, rfl, fun _ => rfl⟩
